import Mathlib

set_option linter.unusedVariables false

/-!
Verification of the `basic_user` repository: a pydantic validation schema
(`app/schema.py`) and a sequential black-box smoke-test harness
(`app/test.py`) that exercises a remote HTTP API.

The harness is embedded shallowly: each Python test function becomes a
computation in a state-plus-exception monad `Ht` that records the list of
HTTP requests issued so far and can raise the Python exceptions that
`main` catches (`AssertionError`, `ConnectionError`, anything else).  The
remote server is an abstract oracle that may answer each request depending
on the full history of requests made before it (so stateful behaviour such
as duplicate-registration detection is expressible).
-/

/-- JSON values as decoded by `response.json()` in the harness.  Numbers are
restricted to integers; no claim inspects a non-integral number. -/
inductive Json where
  | null : Json
  | bool (b : Bool) : Json
  | num (n : Int) : Json
  | str (s : String) : Json
  | arr (elems : List Json) : Json
  | obj (fields : List (String × Json)) : Json
deriving Repr

mutual

/-- Python `==` on decoded JSON values (used by the harness in assertions such
as `data["id"] == post_id`). -/
def Json.beq : Json → Json → Bool
  | .null, .null => true
  | .bool a, .bool b => a == b
  | .num a, .num b => a == b
  | .str a, .str b => a == b
  | .arr a, .arr b => Json.beqList a b
  | .obj a, .obj b => Json.beqFields a b
  | _, _ => false

def Json.beqList : List Json → List Json → Bool
  | [], [] => true
  | a :: xs, b :: ys => Json.beq a b && Json.beqList xs ys
  | _, _ => false

def Json.beqFields : List (String × Json) → List (String × Json) → Bool
  | [], [] => true
  | (k, v) :: xs, (k2, v2) :: ys => k == k2 && Json.beq v v2 && Json.beqFields xs ys
  | _, _ => false

end

instance : BEq Json := ⟨Json.beq⟩

/-- Occurrence of `needle` as a contiguous run inside `hay`. -/
def listContains (needle : List Char) : List Char → Bool
  | [] => needle.isPrefixOf []
  | h :: t => needle.isPrefixOf (h :: t) || listContains needle t

/-- String containment, Python `needle in hay` for strings. -/
def strContains (hay needle : String) : Bool :=
  listContains needle.toList hay.toList

/-- Python `str()` of a decoded JSON value, as used by f-string interpolation
when the harness builds URLs and Authorization headers.  The `arr`/`obj`
cases do not reproduce the full Python repr; no run inspected by a theorem
interpolates a list or dict. -/
def pyStr : Json → String
  | .null => "None"
  | .bool true => "True"
  | .bool false => "False"
  | .num n => toString n
  | .str s => s
  | .arr _ => "<list>"
  | .obj _ => "<dict>"

/-- The Python exceptions distinguished by the `try`/`except` chain in
`main`. -/
inductive PyExc where
  | assertionError (msg : String) : PyExc
  | connectionError : PyExc
  | otherExc (msg : String) : PyExc
deriving Repr, DecidableEq

/-- Python `d.get(k)` on a decoded JSON value: the value bound to `k`
(`None`, i.e. `Json.null`, when absent); an `AttributeError` when the value
is not a dict. -/
def jGet (j : Json) (k : String) : Except PyExc Json :=
  match j with
  | .obj fs =>
    match fs.lookup k with
    | some v => Except.ok v
    | none => Except.ok Json.null
  | _ => Except.error (PyExc.otherExc ("AttributeError: get " ++ k))

/-- Python `d.get(k, default)`. -/
def jGetD (j : Json) (k : String) (d : Json) : Except PyExc Json :=
  match j with
  | .obj fs =>
    match fs.lookup k with
    | some v => Except.ok v
    | none => Except.ok d
  | _ => Except.error (PyExc.otherExc ("AttributeError: get " ++ k))

/-- Python `d[k]`: `KeyError` when absent, `TypeError` when not a dict. -/
def jIndex (j : Json) (k : String) : Except PyExc Json :=
  match j with
  | .obj fs =>
    match fs.lookup k with
    | some v => Except.ok v
    | none => Except.error (PyExc.otherExc ("KeyError: " ++ k))
  | _ => Except.error (PyExc.otherExc ("TypeError: not subscriptable: " ++ k))

/-- Python `needle in x` for a decoded JSON value `x`: key membership for a
dict, element membership for a list, substring for a string, `TypeError`
otherwise. -/
def pyIn (needle : String) (j : Json) : Except PyExc Bool :=
  match j with
  | .obj fs => Except.ok (fs.any (fun kv => kv.1 == needle))
  | .arr xs => Except.ok (xs.any (fun x => Json.beq x (Json.str needle)))
  | .str s => Except.ok (strContains s needle)
  | _ => Except.error (PyExc.otherExc "TypeError: argument not iterable")

/-- Python `isinstance(x, list)` on a decoded JSON value. -/
def Json.isArr : Json → Bool
  | .arr _ => true
  | _ => false

/-- Python `x is not None` on a decoded JSON value (JSON `null` decodes to
`None`). -/
def Json.notNull : Json → Bool
  | .null => false
  | _ => true

/-! ## The HTTP layer of the harness -/

/-- HTTP methods used by `test.py`. -/
inductive Method where
  | get | post | put | delete
deriving DecidableEq, BEq, Repr

/-- One HTTP request as issued through the `requests` library: method, full
URL, optional JSON body (the `json=` argument), optional `Authorization`
header value. -/
structure Request where
  method : Method
  url : String
  body : Option Json
  auth : Option String
deriving Repr

instance : BEq Request :=
  ⟨fun a b => a.method == b.method && a.url == b.url && a.body == b.body && a.auth == b.auth⟩

/-- One HTTP response: status code and decoded JSON body. -/
structure Response where
  status : Nat
  body : Json
deriving Repr

/-- What a call through `requests` can do: deliver a response, or fail to
connect (raising `requests.exceptions.ConnectionError`). -/
inductive HttpResult where
  | success (r : Response) : HttpResult
  | connError : HttpResult
deriving Repr

/-- The remote server under test, abstracted as an oracle.  It sees the full
history of requests made so far, so stateful behaviour (for example
rejecting a duplicate registration) is expressible. -/
def Server : Type := List Request → Request → HttpResult

/-- The monad in which each test function of the harness runs: it threads
the list of HTTP requests issued so far and can raise a Python
exception. -/
def Ht (α : Type) : Type := List Request → List Request × Except PyExc α

def Ht.pure {α : Type} (a : α) : Ht α := fun t => (t, Except.ok a)

def Ht.bind {α β : Type} (x : Ht α) (f : α → Ht β) : Ht β := fun t =>
  match x t with
  | (t1, Except.ok a) => f a t1
  | (t1, Except.error e) => (t1, Except.error e)

instance : Monad Ht where
  pure := Ht.pure
  bind := Ht.bind

/-- Raise a Python exception. -/
def pyRaise {α : Type} (e : PyExc) : Ht α := fun t => (t, Except.error e)

/-- A Python `assert cond, msg` statement. -/
def pyAssert (cond : Bool) (msg : String) : Ht Unit :=
  if cond then Ht.pure () else pyRaise (PyExc.assertionError msg)

/-- Run a pure `Except` computation (dict access and the like) inside the
harness monad. -/
def liftE {α : Type} (x : Except PyExc α) : Ht α := fun t => (t, x)

/-- Issue one HTTP request: the request is appended to the history and the
server oracle answers on the history that preceded it. -/
def httpCall (server : Server) (req : Request) : Ht Response := fun t =>
  match server t req with
  | HttpResult.success r => (t ++ [req], Except.ok r)
  | HttpResult.connError => (t ++ [req], Except.error PyExc.connectionError)

/-! ## Harness configuration and shared state (`test.py` module level) -/

def BASE_URL : String := "http://localhost:8000"

def API_BASE : String := BASE_URL ++ "/api"

/-- The module-level `timestamp = int(time.time())` is an arbitrary input of
the run; every definition below is parametrised by it. -/
def test_user (ts : Nat) : Json :=
  Json.obj
    [ ("username", Json.str ("testuser_" ++ toString ts)),
      ("email", Json.str ("test_" ++ toString ts ++ "@example.com")),
      ("password", Json.str "password123") ]

/-- Declared at module level in `test.py`; never used by any test. -/
def test_user2 (ts : Nat) : Json :=
  Json.obj
    [ ("username", Json.str ("testuser2_" ++ toString ts)),
      ("email", Json.str ("test2_" ++ toString ts ++ "@example.com")),
      ("password", Json.str "password123") ]

/-- The four module-level globals that thread state between the test steps
(`verification_token` is declared but never written). -/
structure HState where
  auth_token : Json
  user_id : Json
  post_id : Json
  comment_id : Json
  verification_token : Json
deriving Repr

/-- All globals start as Python `None`. -/
def initState : HState :=
  { auth_token := Json.null, user_id := Json.null, post_id := Json.null,
    comment_id := Json.null, verification_token := Json.null }

/-- The `Authorization` header value `f"Bearer {auth_token}"`. -/
def bearer (tok : Json) : String := "Bearer " ++ pyStr tok

/-! ## Request constructors (URL and payload assembly from `test.py`) -/

def registerRequest (ts : Nat) : Request :=
  { method := Method.post, url := API_BASE ++ "/register", body := some (test_user ts), auth := none }

def loginRequest (ts : Nat) : Request :=
  { method := Method.post, url := API_BASE ++ "/login", body := some (test_user ts), auth := none }

def verificationRequestRequest (ts : Nat) : Request :=
  { method := Method.post, url := API_BASE ++ "/email-verification/request",
    body := some (Json.obj [("email", Json.str ("test_" ++ toString ts ++ "@example.com"))]),
    auth := none }

def confirmRequest : Request :=
  { method := Method.post,
    url := API_BASE ++ "/email-verification/confirm?token=dummy_token_for_testing",
    body := none, auth := none }

def profileRequest (tok : Json) : Request :=
  { method := Method.get, url := API_BASE ++ "/profile", body := none, auth := some (bearer tok) }

def postText : String := "This is a test post created by the automated test suite!"

def createPostRequest (tok : Json) : Request :=
  { method := Method.post, url := API_BASE ++ "/posts",
    body := some (Json.obj [("text", Json.str postText)]), auth := some (bearer tok) }

def getAllPostsRequest : Request :=
  { method := Method.get, url := API_BASE ++ "/posts", body := none, auth := none }

def getSinglePostRequest (pid : Json) : Request :=
  { method := Method.get, url := API_BASE ++ "/posts/" ++ pyStr pid, body := none, auth := none }

def updatedText : String := "This post has been updated by the test suite!"

def updatePostRequest (pid tok : Json) : Request :=
  { method := Method.put, url := API_BASE ++ "/posts/" ++ pyStr pid,
    body := some (Json.obj [("text", Json.str updatedText)]), auth := some (bearer tok) }

def commentText : String := "This is a test comment!"

def createCommentRequest (pid tok : Json) : Request :=
  { method := Method.post, url := API_BASE ++ "/comments?post_id=" ++ pyStr pid,
    body := some (Json.obj [("text", Json.str commentText)]), auth := some (bearer tok) }

def getCommentsRequest (pid : Json) : Request :=
  { method := Method.get, url := API_BASE ++ "/" ++ pyStr pid ++ "/comments",
    body := none, auth := none }

def likeRequest (pid tok : Json) : Request :=
  { method := Method.post, url := API_BASE ++ "/likes?post_id=" ++ pyStr pid,
    body := none, auth := some (bearer tok) }

def unlikeRequest (pid tok : Json) : Request :=
  { method := Method.delete, url := API_BASE ++ "/likes?post_id=" ++ pyStr pid,
    body := none, auth := some (bearer tok) }

def invalidLoginRequest : Request :=
  { method := Method.post, url := API_BASE ++ "/login",
    body := some (Json.obj [("email", Json.str "wrong@email.com"), ("password", Json.str "wrongpass")]),
    auth := none }

def invalidTokenProfileRequest : Request :=
  { method := Method.get, url := API_BASE ++ "/profile", body := none,
    auth := some "Bearer invalid_token" }

def nonExistentPostRequest : Request :=
  { method := Method.get, url := API_BASE ++ "/posts/non-existent-id", body := none, auth := none }

def invalidEmailUser : Json :=
  Json.obj
    [ ("username", Json.str "testuser3"),
      ("email", Json.str "invalid-email"),
      ("password", Json.str "password123") ]

def invalidEmailRegisterRequest : Request :=
  { method := Method.post, url := API_BASE ++ "/register", body := some invalidEmailUser, auth := none }

def shortPasswordUser : Json :=
  Json.obj
    [ ("username", Json.str "testuser3"),
      ("email", Json.str "test3@example.com"),
      ("password", Json.str "123") ]

def shortPasswordRegisterRequest : Request :=
  { method := Method.post, url := API_BASE ++ "/register", body := some shortPasswordUser, auth := none }

/-! ## The test functions of `test.py`.  Print statements have no effect on
any observable modelled here and are omitted. -/

/-- `test_registration` (test.py lines 57-77). -/
def test_registration (ts : Nat) (server : Server) (st : HState) : Ht HState := do
  let response ← httpCall server (registerRequest ts)
  pyAssert (response.status == 201)
    ("Registration failed with status " ++ toString response.status)
  let data := response.body
  let auth_token ← liftE (jGet data "token")
  let userVal ← liftE (jGetD data "user" (Json.obj []))
  let user_id ← liftE (jGet userVal "id")
  pyAssert auth_token.notNull "No token received"
  pyAssert user_id.notNull "No user ID received"
  Ht.pure { st with auth_token := auth_token, user_id := user_id }

/-- `test_login_before_verification` (test.py lines 79-95). -/
def test_login_before_verification (ts : Nat) (server : Server) (st : HState) : Ht HState := do
  let response ← httpCall server (loginRequest ts)
  pyAssert (response.status == 401)
    ("Login should fail before verification, got " ++ toString response.status)
  let detail ← liftE (jGetD response.body "detail" (Json.str ""))
  let found ← liftE (pyIn "Please verify your email" detail)
  pyAssert found "Wrong error message"
  Ht.pure st

/-- `test_email_verification_request` (test.py lines 97-115). -/
def test_email_verification_request (ts : Nat) (server : Server) (st : HState) : Ht HState := do
  let response ← httpCall server (verificationRequestRequest ts)
  pyAssert (response.status == 200)
    ("Email verification request failed with status " ++ toString response.status)
  let found ← liftE (pyIn "message" response.body)
  pyAssert found "No message in response"
  Ht.pure st

/-- `test_email_verification_confirm` (test.py lines 117-140): only ever
submits the fixed dummy token. -/
def test_email_verification_confirm (ts : Nat) (server : Server) (st : HState) : Ht HState := do
  let response ← httpCall server confirmRequest
  pyAssert (response.status == 400)
    ("Invalid token should be rejected, got " ++ toString response.status)
  let detail ← liftE (jGetD response.body "detail" (Json.str ""))
  let found ← liftE (pyIn "Invalid or expired" detail)
  pyAssert found "Wrong error message for invalid token"
  Ht.pure st

/-- `test_login` (test.py lines 142-166): returns `false` instead of raising
when the status is not 200. -/
def test_login (ts : Nat) (server : Server) (st : HState) : Ht (HState × Bool) := do
  let response ← httpCall server (loginRequest ts)
  if response.status == 200 then do
    let data := response.body
    let auth_token ← liftE (jGet data "token")
    let userVal ← liftE (jGetD data "user" (Json.obj []))
    let user_id ← liftE (jGet userVal "id")
    pyAssert auth_token.notNull "No token received"
    pyAssert user_id.notNull "No user ID received"
    Ht.pure ({ st with auth_token := auth_token, user_id := user_id }, true)
  else
    Ht.pure (st, false)

/-- `test_profile` (test.py lines 168-192). -/
def test_profile (ts : Nat) (server : Server) (st : HState) : Ht (HState × Bool) := do
  pyAssert st.auth_token.notNull "No auth token available"
  let response ← httpCall server (profileRequest st.auth_token)
  if response.status == 200 then do
    let found ← liftE (pyIn "user" response.body)
    pyAssert found "No user data in response"
    let userVal ← liftE (jIndex response.body "user")
    let emailVal ← liftE (jIndex userVal "email")
    pyAssert (Json.beq emailVal (Json.str ("test_" ++ toString ts ++ "@example.com")))
      "Wrong user email"
    Ht.pure (st, true)
  else
    Ht.pure (st, false)

/-- `test_create_post` (test.py lines 194-222). -/
def test_create_post (ts : Nat) (server : Server) (st : HState) : Ht HState := do
  pyAssert st.auth_token.notNull "No auth token available"
  let response ← httpCall server (createPostRequest st.auth_token)
  pyAssert (response.status == 201)
    ("Post creation failed with status " ++ toString response.status)
  let data := response.body
  let post_id ← liftE (jGet data "id")
  pyAssert post_id.notNull "No post ID received"
  let textVal ← liftE (jIndex data "text")
  pyAssert (Json.beq textVal (Json.str postText)) "Post text doesn\x27t match"
  let found ← liftE (pyIn "created_at" data)
  pyAssert found "No created_at timestamp"
  Ht.pure { st with post_id := post_id }

/-- `test_get_all_posts` (test.py lines 224-240). -/
def test_get_all_posts (ts : Nat) (server : Server) (st : HState) : Ht HState := do
  let response ← httpCall server getAllPostsRequest
  pyAssert (response.status == 200)
    ("Get posts failed with status " ++ toString response.status)
  pyAssert response.body.isArr "Response should be a list"
  Ht.pure st

/-- `test_get_single_post` (test.py lines 242-263): note that it checks only
that a `text` field is present, not its value. -/
def test_get_single_post (ts : Nat) (server : Server) (st : HState) : Ht HState := do
  pyAssert st.post_id.notNull "No post ID available"
  let response ← httpCall server (getSinglePostRequest st.post_id)
  pyAssert (response.status == 200)
    ("Get single post failed with status " ++ toString response.status)
  let data := response.body
  let idVal ← liftE (jIndex data "id")
  pyAssert (Json.beq idVal st.post_id) "Wrong post ID"
  let hasText ← liftE (pyIn "text" data)
  pyAssert hasText "No text in post"
  let hasCreated ← liftE (pyIn "created_at" data)
  pyAssert hasCreated "No created_at timestamp"
  Ht.pure st

/-- `test_create_comment` (test.py lines 265-295). -/
def test_create_comment (ts : Nat) (server : Server) (st : HState) : Ht HState := do
  pyAssert st.auth_token.notNull "No auth token available"
  pyAssert st.post_id.notNull "No post ID available"
  let response ← httpCall server (createCommentRequest st.post_id st.auth_token)
  pyAssert (response.status == 201)
    ("Comment creation failed with status " ++ toString response.status)
  let data := response.body
  let comment_id ← liftE (jGet data "id")
  pyAssert comment_id.notNull "No comment ID received"
  let textVal ← liftE (jIndex data "text")
  pyAssert (Json.beq textVal (Json.str commentText)) "Comment text doesn\x27t match"
  let pidVal ← liftE (jIndex data "post_id")
  pyAssert (Json.beq pidVal st.post_id) "Wrong post ID in comment"
  let found ← liftE (pyIn "created_at" data)
  pyAssert found "No created_at timestamp"
  Ht.pure { st with comment_id := comment_id }

/-- `test_get_comments` (test.py lines 297-317). -/
def test_get_comments (ts : Nat) (server : Server) (st : HState) : Ht HState := do
  pyAssert st.post_id.notNull "No post ID available"
  let response ← httpCall server (getCommentsRequest st.post_id)
  pyAssert (response.status == 200)
    ("Get comments failed with status " ++ toString response.status)
  pyAssert response.body.isArr "Response should be a list"
  Ht.pure st

/-- `test_like_post` (test.py lines 319-342). -/
def test_like_post (ts : Nat) (server : Server) (st : HState) : Ht HState := do
  pyAssert st.auth_token.notNull "No auth token available"
  pyAssert st.post_id.notNull "No post ID available"
  let response ← httpCall server (likeRequest st.post_id st.auth_token)
  pyAssert (response.status == 201)
    ("Like post failed with status " ++ toString response.status)
  let data := response.body
  let hasId ← liftE (pyIn "id" data)
  pyAssert hasId "No like ID received"
  let pidVal ← liftE (jIndex data "post_id")
  pyAssert (Json.beq pidVal st.post_id) "Wrong post ID in like"
  let uidVal ← liftE (jIndex data "user_id")
  pyAssert (Json.beq uidVal st.user_id) "Wrong user ID in like"
  Ht.pure st

/-- `test_unlike_post` (test.py lines 344-361). -/
def test_unlike_post (ts : Nat) (server : Server) (st : HState) : Ht HState := do
  pyAssert st.auth_token.notNull "No auth token available"
  pyAssert st.post_id.notNull "No post ID available"
  let response ← httpCall server (unlikeRequest st.post_id st.auth_token)
  pyAssert (response.status == 204)
    ("Unlike post failed with status " ++ toString response.status)
  Ht.pure st

/-- `test_update_post` (test.py lines 363-389): it inspects the PUT response
itself and does not re-fetch the post. -/
def test_update_post (ts : Nat) (server : Server) (st : HState) : Ht HState := do
  pyAssert st.auth_token.notNull "No auth token available"
  pyAssert st.post_id.notNull "No post ID available"
  let response ← httpCall server (updatePostRequest st.post_id st.auth_token)
  pyAssert (response.status == 200)
    ("Update post failed with status " ++ toString response.status)
  let data := response.body
  let textVal ← liftE (jIndex data "text")
  pyAssert (Json.beq textVal (Json.str updatedText)) "Post text not updated"
  let idVal ← liftE (jIndex data "id")
  pyAssert (Json.beq idVal st.post_id) "Wrong post ID"
  Ht.pure st

/-- `test_error_cases` (test.py lines 391-423). -/
def test_error_cases (ts : Nat) (server : Server) (st : HState) : Ht HState := do
  let r1 ← httpCall server invalidLoginRequest
  pyAssert (r1.status == 401) "Invalid login should be rejected"
  let r2 ← httpCall server (registerRequest ts)
  pyAssert (r2.status == 400) "Duplicate registration should be rejected"
  let r3 ← httpCall server invalidTokenProfileRequest
  pyAssert (r3.status == 401) "Invalid token should be rejected"
  let r4 ← httpCall server nonExistentPostRequest
  pyAssert (r4.status == 404) "Non-existent post should return 404"
  Ht.pure st

/-- `test_validation_errors` (test.py lines 425-451). -/
def test_validation_errors (ts : Nat) (server : Server) (st : HState) : Ht HState := do
  let r1 ← httpCall server invalidEmailRegisterRequest
  pyAssert (r1.status == 422) "Invalid email should be rejected"
  let r2 ← httpCall server shortPasswordRegisterRequest
  pyAssert (r2.status == 400) "Short password should be rejected"
  Ht.pure st

/-- `cleanup_test_data` (test.py lines 50-55): prints two messages and does
nothing else. -/
def cleanup_test_data (ts : Nat) (server : Server) (st : HState) : Ht HState :=
  Ht.pure st

/-! ## `main` (test.py lines 453-514) -/

/-- One step of `main`: each test function, with the `True`/`False` result
that `main` discards dropped. -/
def Step : Type := Server → HState → Ht HState

def registrationStep (ts : Nat) : Step := fun server st => test_registration ts server st

def loginBeforeVerificationStep (ts : Nat) : Step := fun server st =>
  test_login_before_verification ts server st

def verificationRequestStep (ts : Nat) : Step := fun server st =>
  test_email_verification_request ts server st

def verificationConfirmStep (ts : Nat) : Step := fun server st =>
  test_email_verification_confirm ts server st

def loginStep (ts : Nat) : Step := fun server st =>
  Ht.bind (test_login ts server st) (fun p => Ht.pure p.1)

def profileStep (ts : Nat) : Step := fun server st =>
  Ht.bind (test_profile ts server st) (fun p => Ht.pure p.1)

def createPostStep (ts : Nat) : Step := fun server st => test_create_post ts server st

def getAllPostsStep (ts : Nat) : Step := fun server st => test_get_all_posts ts server st

def getSinglePostStep (ts : Nat) : Step := fun server st => test_get_single_post ts server st

def updatePostStep (ts : Nat) : Step := fun server st => test_update_post ts server st

def createCommentStep (ts : Nat) : Step := fun server st => test_create_comment ts server st

def getCommentsStep (ts : Nat) : Step := fun server st => test_get_comments ts server st

def likePostStep (ts : Nat) : Step := fun server st => test_like_post ts server st

def unlikePostStep (ts : Nat) : Step := fun server st => test_unlike_post ts server st

def errorCasesStep (ts : Nat) : Step := fun server st => test_error_cases ts server st

def validationErrorsStep (ts : Nat) : Step := fun server st => test_validation_errors ts server st

def cleanupStep (ts : Nat) : Step := fun server st => cleanup_test_data ts server st

/-- Run a list of steps in order, threading the shared globals, stopping at
the first uncaught exception (sequential Python calls). -/
def runList (server : Server) : HState → List Step → Ht HState
  | st, [] => Ht.pure st
  | st, step :: rest => Ht.bind (step server st) (fun st2 => runList server st2 rest)

/-- The body of the `try:` block in `main`, in source order (test.py lines
459-501), `cleanup_test_data` included. -/
def mainSteps (ts : Nat) : List Step :=
  [ registrationStep ts,
    loginBeforeVerificationStep ts,
    verificationRequestStep ts,
    verificationConfirmStep ts,
    loginStep ts,
    profileStep ts,
    createPostStep ts,
    getAllPostsStep ts,
    getSinglePostStep ts,
    updatePostStep ts,
    createCommentStep ts,
    getCommentsStep ts,
    likePostStep ts,
    unlikePostStep ts,
    errorCasesStep ts,
    validationErrorsStep ts,
    cleanupStep ts ]

/-- The whole `try:` body, started from the initial globals and an empty
request history. -/
def runTests (ts : Nat) (server : Server) : List Request × Except PyExc HState :=
  runList server initState (mainSteps ts) []

/-- The externally visible outcome of one invocation of `main`. -/
inductive RunResult where
  | completed : RunResult
  | connectionFailure : RunResult
  | assertionFailure (msg : String) : RunResult
  | otherFailure (msg : String) : RunResult
deriving Repr, DecidableEq

/-- The `except` chain of `main` (test.py lines 503-514), tried in source
order: `ConnectionError` first, then `AssertionError`, then `Exception`. -/
def handleExc (e : PyExc) : RunResult :=
  match e with
  | PyExc.connectionError => RunResult.connectionFailure
  | PyExc.assertionError m => RunResult.assertionFailure m
  | PyExc.otherExc m => RunResult.otherFailure m

/-- `main` (test.py lines 453-514). -/
def pyMain (ts : Nat) (server : Server) : RunResult :=
  match (runTests ts server).2 with
  | Except.ok _ => RunResult.completed
  | Except.error e => handleExc e

/-! ## A concrete well-behaved server, used to witness the theorems below -/

/-- Response bodies served by `gServer`. -/
def gRegisterBody (ts : Nat) : Json :=
  Json.obj
    [ ("token", Json.str "tok"),
      ("user", Json.obj
        [ ("id", Json.str "u1"),
          ("username", Json.str ("testuser_" ++ toString ts)),
          ("email", Json.str ("test_" ++ toString ts ++ "@example.com")) ]) ]

def gUnverifiedBody : Json := Json.obj [("detail", Json.str "Please verify your email first")]

def gConfirmBody : Json := Json.obj [("detail", Json.str "Invalid or expired token")]

def gProfileBody (ts : Nat) : Json :=
  Json.obj [("user", Json.obj
    [ ("id", Json.str "u1"),
      ("username", Json.str ("testuser_" ++ toString ts)),
      ("email", Json.str ("test_" ++ toString ts ++ "@example.com")) ])]

def gPostBody : Json :=
  Json.obj
    [ ("id", Json.str "p1"), ("text", Json.str postText),
      ("created_at", Json.str "2026-01-01T00:00:00") ]

def gUpdatedPostBody : Json :=
  Json.obj
    [ ("id", Json.str "p1"), ("text", Json.str updatedText),
      ("created_at", Json.str "2026-01-01T00:00:00") ]

def gCommentBody : Json :=
  Json.obj
    [ ("id", Json.str "c1"), ("text", Json.str commentText),
      ("post_id", Json.str "p1"), ("created_at", Json.str "2026-01-01T00:00:01") ]

def gLikeBody : Json :=
  Json.obj [("id", Json.str "l1"), ("post_id", Json.str "p1"), ("user_id", Json.str "u1")]

/-- A deterministic server with the behaviour the harness expects: it issues
a token at registration, keeps the account unverified (so every login is
answered 401), rejects a repeated registration of the same payload by
consulting the request history, and serves one post `p1`. -/
def gServer (ts : Nat) : Server := fun hist req =>
  if req.url == API_BASE ++ "/register" && req.method == Method.post then
    (if req.body == some (test_user ts) then
      (if hist.any (fun r => r.url == API_BASE ++ "/register" && r.body == some (test_user ts)) then
        HttpResult.success { status := 400, body := Json.obj [("detail", Json.str "Email already registered")] }
      else
        HttpResult.success { status := 201, body := gRegisterBody ts })
    else if req.body == some invalidEmailUser then
      HttpResult.success { status := 422, body := Json.obj [("detail", Json.str "value is not a valid email address")] }
    else if req.body == some shortPasswordUser then
      HttpResult.success { status := 400, body := Json.obj [("detail", Json.str "Password too short")] }
    else
      HttpResult.success { status := 400, body := Json.null })
  else if req.url == API_BASE ++ "/login" && req.method == Method.post then
    HttpResult.success { status := 401, body := gUnverifiedBody }
  else if req.url == API_BASE ++ "/email-verification/request" && req.method == Method.post then
    HttpResult.success { status := 200, body := Json.obj [("message", Json.str "Verification email sent")] }
  else if req.url == API_BASE ++ "/email-verification/confirm?token=dummy_token_for_testing"
      && req.method == Method.post then
    HttpResult.success { status := 400, body := gConfirmBody }
  else if req.url == API_BASE ++ "/profile" && req.method == Method.get then
    (if req.auth == some (bearer (Json.str "tok")) then
      HttpResult.success { status := 200, body := gProfileBody ts }
    else
      HttpResult.success { status := 401, body := Json.obj [("detail", Json.str "Invalid token")] })
  else if req.url == API_BASE ++ "/posts" && req.method == Method.post then
    HttpResult.success { status := 201, body := gPostBody }
  else if req.url == API_BASE ++ "/posts" && req.method == Method.get then
    HttpResult.success { status := 200, body := Json.arr [gPostBody] }
  else if req.url == API_BASE ++ "/posts/p1" && req.method == Method.get then
    HttpResult.success { status := 200, body := gPostBody }
  else if req.url == API_BASE ++ "/posts/p1" && req.method == Method.put then
    HttpResult.success { status := 200, body := gUpdatedPostBody }
  else if req.url == API_BASE ++ "/comments?post_id=p1" && req.method == Method.post then
    HttpResult.success { status := 201, body := gCommentBody }
  else if req.url == API_BASE ++ "/p1/comments" && req.method == Method.get then
    HttpResult.success { status := 200, body := Json.arr [gCommentBody] }
  else if req.url == API_BASE ++ "/likes?post_id=p1" && req.method == Method.post then
    HttpResult.success { status := 201, body := gLikeBody }
  else if req.url == API_BASE ++ "/likes?post_id=p1" && req.method == Method.delete then
    HttpResult.success { status := 204, body := Json.null }
  else
    HttpResult.success { status := 404, body := Json.obj [("detail", Json.str "Not found")] }

/-- Like `gServer`, except that fetching the post by id returns a text that
differs from the text it was created (and later updated) with. -/
def driftServer (ts : Nat) : Server := fun hist req =>
  if req.url == API_BASE ++ "/posts/p1" && req.method == Method.get then
    HttpResult.success
      { status := 200,
        body := Json.obj
          [ ("id", Json.str "p1"),
            ("text", Json.str "a completely different text"),
            ("created_at", Json.str "2026-01-01T00:00:00") ] }
  else gServer ts hist req

/-- A server whose every response has status 500, making the very first
assertion of the run fail. -/
def badServer : Server := fun hist req =>
  HttpResult.success { status := 500, body := Json.null }

/-- A server that refuses connections on the very first request and behaves
like `gServer` afterwards. -/
def wServer : Server := fun hist req =>
  if hist.isEmpty then HttpResult.connError else gServer 0 hist req

/-- The globals as they stand after a registration answered by `gServer`. -/
def gStateTok : HState :=
  { initState with auth_token := Json.str "tok", user_id := Json.str "u1" }

/-- The globals as they stand once the post `p1` has been created. -/
def gStatePost : HState := { gStateTok with post_id := Json.str "p1" }

/-! ## The validation schema (`app/schema.py`) -/

/-- `UserBase` (schema.py lines 3-5). -/
structure UserBase where
  username : String
  email : String
deriving Repr, DecidableEq

/-- `UserCreate` (schema.py lines 7-8). -/
structure UserCreate extends UserBase where
  password : String
deriving Repr, DecidableEq

/-- `UserLogin` (schema.py lines 10-12). -/
structure UserLogin where
  email : String
  password : String
deriving Repr, DecidableEq

/-- `UserResponse` (schema.py lines 14-15): `username`, `email`, `id` and no
password field. -/
structure UserResponse extends UserBase where
  id : String
deriving Repr, DecidableEq

/-- `TokenResponse` (schema.py lines 17-19): a user response plus an opaque
token string. -/
structure TokenResponse where
  user : UserResponse
  token : String
deriving Repr, DecidableEq

/-- Field lookup on a raw payload (no exception semantics needed here: a
non-dict payload simply has no fields). -/
def jLookup (j : Json) (k : String) : Option Json :=
  match j with
  | Json.obj fs => fs.lookup k
  | _ => none

/-- Modelled from the spec: the `EmailStr` syntactic email check lives in the
pydantic library, outside this repository; per the spec an email field must
be "a syntactically valid email address".  Modelled as: exactly one at-sign
separating a nonempty local part from a nonempty domain that contains a
dot. -/
def isValidEmail (s : String) : Bool :=
  let cs := s.toList
  let lp := cs.takeWhile (fun c => c != '@')
  match cs.dropWhile (fun c => c != '@') with
  | [] => false
  | _ :: dom =>
    !dom.any (fun c => c == '@') && !lp.isEmpty && !dom.isEmpty && dom.any (fun c => c == '.')

/-- Modelled from the spec: the pydantic validation engine for `UserCreate`
is outside this repository; per the spec a raw payload is accepted exactly
when the declared required fields (`username`, `email`, `password`,
schema.py lines 3-8) are present and the email field is syntactically
valid; otherwise a validation failure is signalled. -/
def validateUserCreate (j : Json) : Except String UserCreate :=
  match jLookup j "username", jLookup j "email", jLookup j "password" with
  | some u, some e, some p =>
    if isValidEmail (pyStr e) then
      Except.ok { username := pyStr u, email := pyStr e, password := pyStr p }
    else Except.error "value is not a valid email address"
  | _, _, _ => Except.error "field required"

/-- Modelled from the spec: pydantic validation for `UserLogin` (schema.py
lines 10-12), as for `validateUserCreate`. -/
def validateUserLogin (j : Json) : Except String UserLogin :=
  match jLookup j "email", jLookup j "password" with
  | some e, some p =>
    if isValidEmail (pyStr e) then
      Except.ok { email := pyStr e, password := pyStr p }
    else Except.error "value is not a valid email address"
  | _, _ => Except.error "field required"

/-- Modelled from the spec: pydantic validation for `UserResponse` (schema.py
lines 14-15), as for `validateUserCreate`. -/
def validateUserResponse (j : Json) : Except String UserResponse :=
  match jLookup j "username", jLookup j "email", jLookup j "id" with
  | some u, some e, some i =>
    if isValidEmail (pyStr e) then
      Except.ok { username := pyStr u, email := pyStr e, id := pyStr i }
    else Except.error "value is not a valid email address"
  | _, _, _ => Except.error "field required"

/-- Modelled from the spec: pydantic validation for `TokenResponse`
(schema.py lines 17-19): a `user` field that itself validates as a
`UserResponse`, plus a `token` field. -/
def validateTokenResponse (j : Json) : Except String TokenResponse :=
  match jLookup j "user", jLookup j "token" with
  | some u, some t =>
    (match validateUserResponse u with
     | Except.ok ur => Except.ok { user := ur, token := pyStr t }
     | Except.error e => Except.error e)
  | _, _ => Except.error "field required"

/-- Acceptance, discarding the parsed value. -/
def vOk {α : Type} : Except String α → Bool
  | Except.ok _ => true
  | Except.error _ => false

/-! ## Supporting lemmas -/

@[simp] theorem Ht.monadBind_def {α β : Type} (x : Ht α) (f : α → Ht β) :
    x >>= f = Ht.bind x f := rfl

@[simp] theorem Ht.monadPure_def {α : Type} (a : α) :
    (pure a : Ht α) = Ht.pure a := rfl

@[simp] theorem Ht.bind_apply {α β : Type} (x : Ht α) (f : α → Ht β) (t : List Request) :
    Ht.bind x f t =
      (match x t with
       | (t1, Except.ok a) => f a t1
       | (t1, Except.error e) => (t1, Except.error e)) := rfl

@[simp] theorem Ht.pure_apply {α : Type} (a : α) (t : List Request) :
    Ht.pure a t = (t, Except.ok a) := rfl

@[simp] theorem pyAssert_apply (cond : Bool) (msg : String) (t : List Request) :
    pyAssert cond msg t =
      (t, if cond then Except.ok () else Except.error (PyExc.assertionError msg)) := by
  by_cases h : cond <;> simp [pyAssert, h, pyRaise, Ht.pure]

@[simp] theorem liftE_apply {α : Type} (x : Except PyExc α) (t : List Request) :
    liftE x t = (t, x) := rfl

@[simp] theorem httpCall_apply (server : Server) (req : Request) (t : List Request) :
    httpCall server req t =
      (match server t req with
       | HttpResult.success r => (t ++ [req], Except.ok r)
       | HttpResult.connError => (t ++ [req], Except.error PyExc.connectionError)) := rfl

theorem listContains_of_isPrefixOf {n l : List Char} (h : n.isPrefixOf l = true) :
    listContains n l = true := by
  cases l with
  | nil => simpa [listContains] using h
  | cons a t => simp [listContains, h]

theorem listContains_cons {n : List Char} {a : Char} {t : List Char}
    (h : listContains n t = true) : listContains n (a :: t) = true := by
  simp [listContains, h]

theorem listContains_of_prefix_append {p n l : List Char}
    (h : (p ++ n).isPrefixOf l = true) : listContains n l = true := by
  induction p generalizing l with
  | nil => exact listContains_of_isPrefixOf (by simpa using h)
  | cons c q ih =>
    cases l with
    | nil => simp [List.isPrefixOf] at h
    | cons a t =>
      rw [List.isPrefixOf_iff_prefix] at h
      obtain ⟨s, hs⟩ := h
      rw [List.cons_append, List.cons_append] at hs
      have hc : c = a := (List.cons.injEq _ _ _ _ ▸ hs).1
      have ht : (q ++ n) ++ s = t := (List.cons.injEq _ _ _ _ ▸ hs).2
      have : (q ++ n).isPrefixOf t = true := by
        rw [List.isPrefixOf_iff_prefix]; exact ⟨s, ht⟩
      exact listContains_cons (ih this)

theorem listContains_append_left {p n l : List Char}
    (h : listContains (p ++ n) l = true) : listContains n l = true := by
  induction l with
  | nil =>
    have : (p ++ n).isPrefixOf ([] : List Char) = true := by simpa [listContains] using h
    exact listContains_of_prefix_append this
  | cons a t ih =>
    have h2 : (p ++ n).isPrefixOf (a :: t) = true ∨ listContains (p ++ n) t = true := by
      simpa [listContains, Bool.or_eq_true] using h
    cases h2 with
    | inl hp => exact listContains_of_prefix_append hp
    | inr hr => exact listContains_cons (ih hr)

/-- The harness asserts containment of "Please verify your email"; that
entails containment of "verify your email". -/
theorem strContains_verify_sub {s : String}
    (h : strContains s "Please verify your email" = true) :
    strContains s "verify your email" = true := by
  have he : ("Please verify your email").toList
      = ("Please ").toList ++ ("verify your email").toList := by decide
  have h2 : listContains (("Please ").toList ++ ("verify your email").toList) s.toList = true := by
    rw [strContains, he] at h; exact h
  exact listContains_append_left h2

theorem runList_append (server : Server) (st : HState) (l1 l2 : List Step) (t : List Request) :
    runList server st (l1 ++ l2) t =
      (match runList server st l1 t with
       | (t1, Except.ok st1) => runList server st1 l2 t1
       | (t1, Except.error e) => (t1, Except.error e)) := by
  induction l1 generalizing st t with
  | nil => simp [runList]
  | cons s rest ih =>
    simp only [List.cons_append, runList, Ht.bind_apply]
    cases h : s server st t with
    | mk t1 r =>
      cases r with
      | ok st1 => simp [ih]
      | error e => rfl

/-- A step that fails with an uncaught exception ends the run there: the
remaining steps neither run nor issue requests. -/
theorem runList_error_append (server : Server) (st : HState) (l1 l2 : List Step)
    (t t1 : List Request) (e : PyExc)
    (h : runList server st l1 t = (t1, Except.error e)) :
    runList server st (l1 ++ l2) t = (t1, Except.error e) := by
  rw [runList_append, h]

theorem runList_ok_append (server : Server) (st st1 : HState) (l1 l2 : List Step)
    (t t1 : List Request)
    (h : runList server st l1 t = (t1, Except.ok st1)) :
    runList server st (l1 ++ l2) t = runList server st1 l2 t1 := by
  rw [runList_append, h]

/-- Appending the cleanup step changes nothing about a run. -/
theorem runList_concat_cleanup (ts : Nat) (server : Server) (st : HState)
    (l : List Step) (t : List Request) :
    runList server st (l ++ [cleanupStep ts]) t = runList server st l t := by
  rw [runList_append]
  cases h : runList server st l t with
  | mk t1 r =>
    cases r with
    | ok st1 => simp [runList, cleanupStep, cleanup_test_data, Ht.bind]
    | error e => rfl

/-! ## The claims -/

/-- C2: an assertion failure in any test step aborts the run there (no later
step runs or issues a request) and `main` reports the diagnostic; a
connection failure is reported as `connectionFailure`, distinct from every
assertion failure; any other exception is reported as `otherFailure` (where
the traceback is printed). -/
theorem harness_failure_semantics (ts : Nat) (server : Server) :
    (∀ (l1 l2 : List Step) (st : HState) (t t1 : List Request) (m : String),
        mainSteps ts = l1 ++ l2 →
        runList server st l1 t = (t1, Except.error (PyExc.assertionError m)) →
        runList server st (l1 ++ l2) t = (t1, Except.error (PyExc.assertionError m)))
    ∧ (∀ (t : List Request) (e : PyExc), runTests ts server = (t, Except.error e) →
        pyMain ts server = handleExc e)
    ∧ handleExc PyExc.connectionError = RunResult.connectionFailure
    ∧ (∀ m : String, handleExc PyExc.connectionError ≠ RunResult.assertionFailure m)
    ∧ (∀ m : String, handleExc (PyExc.assertionError m) = RunResult.assertionFailure m)
    ∧ (∀ m : String, handleExc (PyExc.otherExc m) = RunResult.otherFailure m) := by
  refine ⟨?_, ?_, rfl, ?_, fun m => rfl, fun m => rfl⟩
  · intro l1 l2 st t t1 m hsplit herr
    exact runList_error_append server st l1 l2 t t1 _ herr
  · intro t e h
    simp [pyMain, h]
  · intro m h
    exact RunResult.noConfusion h

/-- Witness for C2: under `badServer` the first registration assertion fails
with status 500 and `main` reports exactly that diagnostic. -/
theorem harness_failure_semantics_witness :
    runList badServer initState ([registrationStep 0] ++ (mainSteps 0).tail) []
      = ([registerRequest 0],
         Except.error (PyExc.assertionError "Registration failed with status 500"))
    ∧ pyMain 0 badServer = RunResult.assertionFailure "Registration failed with status 500" := by
  have h := harness_failure_semantics 0 badServer
  exact ⟨h.1 [registrationStep 0] ((mainSteps 0).tail) initState [] [registerRequest 0]
      "Registration failed with status 500" rfl rfl,
    h.2.1 [registerRequest 0] (PyExc.assertionError "Registration failed with status 500") rfl⟩

/-- C10: the cleanup step run at the end of `main` issues no HTTP request
and leaves every global unchanged; appending it to any run changes neither
the request trace nor the outcome; it is the final step of `main`. -/
theorem cleanup_frame (ts : Nat) (server : Server) (st : HState) (t : List Request) :
    cleanup_test_data ts server st t = (t, Except.ok st)
    ∧ (∀ l : List Step, runList server st (l ++ [cleanupStep ts]) t = runList server st l t)
    ∧ mainSteps ts = (mainSteps ts).dropLast ++ [cleanupStep ts] := by
  exact ⟨rfl, fun l => runList_concat_cleanup ts server st l t, rfl⟩

/-- C4: the registration step succeeds only with a 201 response whose body
immediately yields a non-null token and a non-null user id, and it stores
both in the globals for the later steps; if it raises instead, the whole
run stops with that exception after the single registration request. -/
theorem registration_gate (ts : Nat) (server : Server) :
    (∀ (st : HState) (t : List Request) (st2 : HState) (t2 : List Request),
        test_registration ts server st t = (t2, Except.ok st2) →
        ∃ r, server t (registerRequest ts) = HttpResult.success r
          ∧ r.status = 201
          ∧ ∃ tok userVal uid,
              jGet r.body "token" = Except.ok tok
              ∧ jGetD r.body "user" (Json.obj []) = Except.ok userVal
              ∧ jGet userVal "id" = Except.ok uid
              ∧ tok.notNull = true ∧ uid.notNull = true
              ∧ st2 = { st with auth_token := tok, user_id := uid }
              ∧ t2 = t ++ [registerRequest ts])
    ∧ (∀ (t2 : List Request) (e : PyExc),
        test_registration ts server initState [] = (t2, Except.error e) →
        runTests ts server = (t2, Except.error e)) := by
  constructor
  · intro st t st2 t2 h
    unfold test_registration at h
    simp only [Ht.monadBind_def, Ht.bind_apply, httpCall_apply, pyAssert_apply, liftE_apply,
      Ht.pure_apply] at h
    cases hs : server t (registerRequest ts) with
    | connError => rw [hs] at h; dsimp only at h; simp at h
    | success r =>
      rw [hs] at h
      dsimp only at h
      refine ⟨r, rfl, ?_⟩
      by_cases h201 : r.status == 201
      · rw [if_pos h201] at h
        dsimp only at h
        cases htok : jGet r.body "token" with
        | error e => rw [htok] at h; dsimp only at h; simp at h
        | ok tok =>
          rw [htok] at h
          dsimp only at h
          cases huser : jGetD r.body "user" (Json.obj []) with
          | error e => rw [huser] at h; dsimp only at h; simp at h
          | ok userVal =>
            rw [huser] at h
            dsimp only at h
            cases huid : jGet userVal "id" with
            | error e => rw [huid] at h; dsimp only at h; simp at h
            | ok uid =>
              rw [huid] at h
              dsimp only at h
              by_cases ht : tok.notNull
              · rw [if_pos ht] at h
                dsimp only at h
                by_cases hu : uid.notNull
                · rw [if_pos hu] at h
                  dsimp only at h
                  simp only [Prod.mk.injEq, Except.ok.injEq] at h
                  exact ⟨by simpa using h201, tok, userVal, uid, rfl, rfl, huid, ht, hu,
                    h.2.symm, h.1.symm⟩
                · rw [if_neg hu] at h; dsimp only at h; simp at h
              · rw [if_neg ht] at h; dsimp only at h; simp at h
      · rw [if_neg h201] at h; dsimp only at h; simp at h
  · intro t2 e h
    simp [runTests, mainSteps, runList, registrationStep, Ht.bind_apply, h]

/-- Witness for C4: `wServer` refuses the first connection (so the run stops
at the registration request), while with a non-empty history the same
request yields a 201 with token and user id that registration captures. -/
theorem registration_gate_witness :
    (∃ r, wServer [confirmRequest] (registerRequest 0) = HttpResult.success r
      ∧ r.status = 201
      ∧ ∃ tok userVal uid,
          jGet r.body "token" = Except.ok tok
          ∧ jGetD r.body "user" (Json.obj []) = Except.ok userVal
          ∧ jGet userVal "id" = Except.ok uid
          ∧ tok.notNull = true ∧ uid.notNull = true
          ∧ ({ initState with auth_token := Json.str "tok", user_id := Json.str "u1" } : HState)
              = { initState with auth_token := tok, user_id := uid }
          ∧ [confirmRequest] ++ [registerRequest 0] = [confirmRequest] ++ [registerRequest 0])
    ∧ runTests 0 wServer = ([registerRequest 0], Except.error PyExc.connectionError) := by
  constructor
  · exact (registration_gate 0 wServer).1 initState [confirmRequest]
      { initState with auth_token := Json.str "tok", user_id := Json.str "u1" }
      ([confirmRequest] ++ [registerRequest 0]) rfl
  · exact (registration_gate 0 wServer).2 [registerRequest 0] PyExc.connectionError rfl

/-- C6: the pre-verification login step succeeds only with a 401 response
whose `detail` passes the containment check for "Please verify your email"
(hence, for a string detail, it contains "verify your email"); otherwise
the step raises and the run aborts. -/
theorem login_before_verification_gate (ts : Nat) (server : Server) :
    ∀ (st : HState) (t : List Request) (st2 : HState) (t2 : List Request),
      test_login_before_verification ts server st t = (t2, Except.ok st2) →
      ∃ r, server t (loginRequest ts) = HttpResult.success r
        ∧ r.status = 401
        ∧ ∃ detail, jGetD r.body "detail" (Json.str "") = Except.ok detail
            ∧ pyIn "Please verify your email" detail = Except.ok true
            ∧ (∀ s, detail = Json.str s → strContains s "verify your email" = true)
            ∧ st2 = st ∧ t2 = t ++ [loginRequest ts] := by
  intro st t st2 t2 h
  unfold test_login_before_verification at h
  simp only [Ht.monadBind_def, Ht.bind_apply, httpCall_apply, pyAssert_apply, liftE_apply,
    Ht.pure_apply] at h
  cases hs : server t (loginRequest ts) with
  | connError => rw [hs] at h; dsimp only at h; simp at h
  | success r =>
    rw [hs] at h
    dsimp only at h
    refine ⟨r, rfl, ?_⟩
    by_cases h401 : r.status == 401
    · rw [if_pos h401] at h
      dsimp only at h
      cases hd : jGetD r.body "detail" (Json.str "") with
      | error e => rw [hd] at h; dsimp only at h; simp at h
      | ok detail =>
        rw [hd] at h
        dsimp only at h
        cases hf : pyIn "Please verify your email" detail with
        | error e => rw [hf] at h; dsimp only at h; simp at h
        | ok found =>
          rw [hf] at h
          dsimp only at h
          cases found with
          | false => simp at h
          | true =>
            simp only [if_pos] at h
            simp only [Prod.mk.injEq, Except.ok.injEq] at h
            refine ⟨by simpa using h401, detail, rfl, hf, ?_, h.2.symm, h.1.symm⟩
            intro s hdet
            subst hdet
            have : strContains s "Please verify your email" = true := by
              simpa [pyIn] using hf
            exact strContains_verify_sub this
    · rw [if_neg h401] at h; dsimp only at h; simp at h

/-- Witness for C6: the run under `gServer`, where the unverified login is
answered 401 with the expected detail message. -/
theorem login_before_verification_gate_witness :
    ∃ r, gServer 0 [] (loginRequest 0) = HttpResult.success r
      ∧ r.status = 401
      ∧ ∃ detail, jGetD r.body "detail" (Json.str "") = Except.ok detail
          ∧ pyIn "Please verify your email" detail = Except.ok true
          ∧ (∀ s, detail = Json.str s → strContains s "verify your email" = true)
          ∧ initState = initState ∧ [loginRequest 0] = [] ++ [loginRequest 0] :=
  login_before_verification_gate 0 (gServer 0) initState [] initState [loginRequest 0] rfl

/-- C7: the confirmation step succeeds only with a 400 response whose
`detail` passes the containment check for "Invalid or expired"; the only
request it ever issues carries the fixed dummy token in the query string,
and the success path (status 200) is never accepted. -/
theorem confirm_invalid_token_gate (ts : Nat) (server : Server) :
    ∀ (st : HState) (t : List Request) (st2 : HState) (t2 : List Request),
      test_email_verification_confirm ts server st t = (t2, Except.ok st2) →
      ∃ r, server t confirmRequest = HttpResult.success r
        ∧ r.status = 400
        ∧ r.status ≠ 200
        ∧ (∃ detail, jGetD r.body "detail" (Json.str "") = Except.ok detail
            ∧ pyIn "Invalid or expired" detail = Except.ok true)
        ∧ confirmRequest.url
            = API_BASE ++ "/email-verification/confirm?token=dummy_token_for_testing"
        ∧ st2 = st ∧ t2 = t ++ [confirmRequest] := by
  intro st t st2 t2 h
  unfold test_email_verification_confirm at h
  simp only [Ht.monadBind_def, Ht.bind_apply, httpCall_apply, pyAssert_apply, liftE_apply,
    Ht.pure_apply] at h
  cases hs : server t confirmRequest with
  | connError => rw [hs] at h; dsimp only at h; simp at h
  | success r =>
    rw [hs] at h
    dsimp only at h
    refine ⟨r, rfl, ?_⟩
    by_cases h400 : r.status == 400
    · rw [if_pos h400] at h
      dsimp only at h
      cases hd : jGetD r.body "detail" (Json.str "") with
      | error e => rw [hd] at h; dsimp only at h; simp at h
      | ok detail =>
        rw [hd] at h
        dsimp only at h
        cases hf : pyIn "Invalid or expired" detail with
        | error e => rw [hf] at h; dsimp only at h; simp at h
        | ok found =>
          rw [hf] at h
          dsimp only at h
          cases found with
          | false => simp at h
          | true =>
            simp only [if_pos] at h
            simp only [Prod.mk.injEq, Except.ok.injEq] at h
            have h400' : r.status = 400 := by simpa using h400
            exact ⟨h400', by rw [h400']; decide, ⟨detail, rfl, hf⟩, rfl, h.2.symm, h.1.symm⟩
    · rw [if_neg h400] at h; dsimp only at h; simp at h

/-- Witness for C7: the confirmation request under `gServer`. -/
theorem confirm_invalid_token_gate_witness :
    ∃ r, gServer 0 [] confirmRequest = HttpResult.success r
      ∧ r.status = 400
      ∧ r.status ≠ 200
      ∧ (∃ detail, jGetD r.body "detail" (Json.str "") = Except.ok detail
          ∧ pyIn "Invalid or expired" detail = Except.ok true)
      ∧ confirmRequest.url
          = API_BASE ++ "/email-verification/confirm?token=dummy_token_for_testing"
      ∧ initState = initState ∧ [confirmRequest] = [] ++ [confirmRequest] :=
  confirm_invalid_token_gate 0 (gServer 0) initState [] initState [confirmRequest] rfl

/-- C5: the validation-error step succeeds only when the malformed-email
registration is answered 422 and the short-password registration is
answered 400, two distinct status codes. -/
theorem validation_status_codes (ts : Nat) (server : Server) :
    ∀ (st : HState) (t : List Request) (st2 : HState) (t2 : List Request),
      test_validation_errors ts server st t = (t2, Except.ok st2) →
      (∃ r1, server t invalidEmailRegisterRequest = HttpResult.success r1 ∧ r1.status = 422)
      ∧ (∃ r2, server (t ++ [invalidEmailRegisterRequest]) shortPasswordRegisterRequest
          = HttpResult.success r2 ∧ r2.status = 400)
      ∧ (422 : Nat) ≠ 400
      ∧ jLookup invalidEmailUser "email" = some (Json.str "invalid-email")
      ∧ st2 = st
      ∧ t2 = t ++ [invalidEmailRegisterRequest, shortPasswordRegisterRequest] := by
  intro st t st2 t2 h
  unfold test_validation_errors at h
  simp only [Ht.monadBind_def, Ht.bind_apply, httpCall_apply, pyAssert_apply, liftE_apply,
    Ht.pure_apply] at h
  cases hs1 : server t invalidEmailRegisterRequest with
  | connError => rw [hs1] at h; dsimp only at h; simp at h
  | success r1 =>
    rw [hs1] at h
    dsimp only at h
    by_cases h422 : r1.status == 422
    · rw [if_pos h422] at h
      dsimp only at h
      cases hs2 : server (t ++ [invalidEmailRegisterRequest]) shortPasswordRegisterRequest with
      | connError => rw [hs2] at h; dsimp only at h; simp at h
      | success r2 =>
        rw [hs2] at h
        dsimp only at h
        by_cases h400 : r2.status == 400
        · rw [if_pos h400] at h
          dsimp only at h
          simp only [Prod.mk.injEq, Except.ok.injEq] at h
          refine ⟨⟨r1, rfl, by simpa using h422⟩, ⟨r2, rfl, by simpa using h400⟩,
            by decide, rfl, h.2.symm, by rw [← h.1]; simp⟩
        · rw [if_neg h400] at h; dsimp only at h; simp at h
    · rw [if_neg h422] at h; dsimp only at h; simp at h

/-- Witness for C5: the validation-error step under `gServer`. -/
theorem validation_status_codes_witness :
    (∃ r1, gServer 0 [] invalidEmailRegisterRequest = HttpResult.success r1 ∧ r1.status = 422)
    ∧ (∃ r2, gServer 0 ([] ++ [invalidEmailRegisterRequest]) shortPasswordRegisterRequest
        = HttpResult.success r2 ∧ r2.status = 400)
    ∧ (422 : Nat) ≠ 400
    ∧ jLookup invalidEmailUser "email" = some (Json.str "invalid-email")
    ∧ initState = initState
    ∧ [invalidEmailRegisterRequest, shortPasswordRegisterRequest]
        = [] ++ [invalidEmailRegisterRequest, shortPasswordRegisterRequest] :=
  validation_status_codes 0 (gServer 0) initState [] initState
    [invalidEmailRegisterRequest, shortPasswordRegisterRequest] rfl

/-- C8: the error-case step succeeds only when the second registration of
the already-used payload (same email as the original registration request)
is answered 400; and whenever that response has any other status the step
raises the duplicate-registration assertion, whatever the rest of the
response or the username carried by the payload — the check reads only the
status code. -/
theorem duplicate_registration_gate (ts : Nat) (server : Server) :
    (∀ (st : HState) (t : List Request) (st2 : HState) (t2 : List Request),
      test_error_cases ts server st t = (t2, Except.ok st2) →
      ∃ r2, server (t ++ [invalidLoginRequest]) (registerRequest ts) = HttpResult.success r2
        ∧ r2.status = 400)
    ∧ (registerRequest ts).body = some (test_user ts)
    ∧ jLookup (test_user ts) "email"
        = some (Json.str ("test_" ++ toString ts ++ "@example.com"))
    ∧ (∀ (st : HState) (t : List Request) (r1 r2 : Response),
        server t invalidLoginRequest = HttpResult.success r1 → r1.status = 401 →
        server (t ++ [invalidLoginRequest]) (registerRequest ts) = HttpResult.success r2 →
        r2.status ≠ 400 →
        test_error_cases ts server st t
          = (t ++ [invalidLoginRequest, registerRequest ts],
             Except.error (PyExc.assertionError "Duplicate registration should be rejected"))) := by
  refine ⟨?_, rfl, rfl, ?_⟩
  · intro st t st2 t2 h
    unfold test_error_cases at h
    simp only [Ht.monadBind_def, Ht.bind_apply, httpCall_apply, pyAssert_apply, liftE_apply,
      Ht.pure_apply] at h
    cases hs1 : server t invalidLoginRequest with
    | connError => rw [hs1] at h; dsimp only at h; simp at h
    | success r1 =>
      rw [hs1] at h
      dsimp only at h
      by_cases h401 : r1.status == 401
      · rw [if_pos h401] at h
        dsimp only at h
        cases hs2 : server (t ++ [invalidLoginRequest]) (registerRequest ts) with
        | connError => rw [hs2] at h; dsimp only at h; simp at h
        | success r2 =>
          rw [hs2] at h
          dsimp only at h
          by_cases h400 : r2.status == 400
          · exact ⟨r2, rfl, by simpa using h400⟩
          · rw [if_neg h400] at h; dsimp only at h; simp at h
      · rw [if_neg h401] at h; dsimp only at h; simp at h
  · intro st t r1 r2 hs1 h401 hs2 hne
    unfold test_error_cases
    simp only [Ht.monadBind_def, Ht.bind_apply, httpCall_apply, pyAssert_apply, liftE_apply,
      Ht.pure_apply]
    rw [hs1]
    dsimp only
    rw [if_pos (by simp [h401])]
    dsimp only
    rw [hs2]
    dsimp only
    rw [if_neg (by simp [hne])]
    simp

/-- Witness for C8: with the original registration already in the history,
`gServer` answers the duplicate with 400 and the step can succeed; with an
empty history it answers 201 and the step raises the
duplicate-registration assertion. -/
theorem duplicate_registration_gate_witness :
    (∃ r2, gServer 0 ([registerRequest 0] ++ [invalidLoginRequest]) (registerRequest 0)
      = HttpResult.success r2 ∧ r2.status = 400)
    ∧ test_error_cases 0 (gServer 0) initState []
        = ([invalidLoginRequest, registerRequest 0],
           Except.error (PyExc.assertionError "Duplicate registration should be rejected")) := by
  constructor
  · exact (duplicate_registration_gate 0 (gServer 0)).1 initState [registerRequest 0]
      initState ([registerRequest 0] ++
        [invalidLoginRequest, registerRequest 0, invalidTokenProfileRequest,
         nonExistentPostRequest]) rfl
  · have h := (duplicate_registration_gate 0 (gServer 0)).2.2.2 initState []
      { status := 401, body := gUnverifiedBody }
      { status := 201, body := gRegisterBody 0 } rfl rfl rfl (by decide)
    simpa using h

/-- C9: when the post-verification login is answered with any status other
than 200, `test_login` returns `False` without raising and without touching
the globals, and the remaining steps of `main` still run from the same
state — in particular with the token captured at registration. -/
theorem login_failure_nonfatal (ts : Nat) (server : Server) :
    ∀ (st : HState) (t : List Request) (r : Response),
      server t (loginRequest ts) = HttpResult.success r → r.status ≠ 200 →
      test_login ts server st t = (t ++ [loginRequest ts], Except.ok (st, false))
      ∧ (∀ rest : List Step, runList server st (loginStep ts :: rest) t
          = runList server st rest (t ++ [loginRequest ts]))
      ∧ mainSteps ts
          = [registrationStep ts, loginBeforeVerificationStep ts, verificationRequestStep ts,
             verificationConfirmStep ts]
            ++ loginStep ts ::
              [profileStep ts, createPostStep ts, getAllPostsStep ts, getSinglePostStep ts,
               updatePostStep ts, createCommentStep ts, getCommentsStep ts, likePostStep ts,
               unlikePostStep ts, errorCasesStep ts, validationErrorsStep ts, cleanupStep ts] := by
  intro st t r hs hne
  have hfirst : test_login ts server st t = (t ++ [loginRequest ts], Except.ok (st, false)) := by
    unfold test_login
    simp only [Ht.monadBind_def, Ht.bind_apply, httpCall_apply, pyAssert_apply, liftE_apply,
      Ht.pure_apply]
    rw [hs]
    dsimp only
    rw [if_neg (by simp [hne])]
    rfl
  refine ⟨hfirst, ?_, rfl⟩
  intro rest
  simp only [runList, loginStep, Ht.bind_apply, hfirst, Ht.pure_apply]

/-- Witness for C9: under `gServer` the login stays 401 and the run goes on
to completion with the registration token. -/
theorem login_failure_nonfatal_witness :
    (test_login 0 (gServer 0) initState []
      = ([] ++ [loginRequest 0], Except.ok (initState, false)))
    ∧ (∀ rest : List Step, runList (gServer 0) initState (loginStep 0 :: rest) []
        = runList (gServer 0) initState rest ([] ++ [loginRequest 0]))
    ∧ mainSteps 0
        = [registrationStep 0, loginBeforeVerificationStep 0, verificationRequestStep 0,
           verificationConfirmStep 0]
          ++ loginStep 0 ::
            [profileStep 0, createPostStep 0, getAllPostsStep 0, getSinglePostStep 0,
             updatePostStep 0, createCommentStep 0, getCommentsStep 0, likePostStep 0,
             unlikePostStep 0, errorCasesStep 0, validationErrorsStep 0, cleanupStep 0] :=
  login_failure_nonfatal 0 (gServer 0) initState []
    { status := 401, body := gUnverifiedBody } rfl (by decide)

/-- C1 (counterexample): under `driftServer` the whole run completes, the
post is created with `postText`, yet the GET by id returns a body whose
`text` differs from `postText`, and after the PUT (request 9) no further
GET of the post is ever issued — so the harness neither compares the
fetched text with the created text nor re-fetches after the update. -/
theorem post_round_trip_claim_false :
    pyMain 0 (driftServer 0) = RunResult.completed
    ∧ (runTests 0 (driftServer 0)).1.get? 6 = some (createPostRequest (Json.str "tok"))
    ∧ (createPostRequest (Json.str "tok")).body = some (Json.obj [("text", Json.str postText)])
    ∧ (runTests 0 (driftServer 0)).1.get? 8 = some (getSinglePostRequest (Json.str "p1"))
    ∧ driftServer 0 ((runTests 0 (driftServer 0)).1.take 8) (getSinglePostRequest (Json.str "p1"))
        = HttpResult.success
            { status := 200,
              body := Json.obj
                [ ("id", Json.str "p1"),
                  ("text", Json.str "a completely different text"),
                  ("created_at", Json.str "2026-01-01T00:00:00") ] }
    ∧ "a completely different text" ≠ postText
    ∧ (runTests 0 (driftServer 0)).1.get? 9
        = some (updatePostRequest (Json.str "p1") (Json.str "tok"))
    ∧ ((runTests 0 (driftServer 0)).1.drop 10).all
        (fun r => !(r.method == Method.get && r.url == API_BASE ++ "/posts/p1")) = true := by
  exact ⟨rfl, rfl, rfl, rfl, rfl, by decide, rfl, rfl⟩

/-- C1 (amended): what the harness actually checks about the post round
trip.  Creation succeeds only with a 201 whose body carries `text` equal to
`postText`, a non-null `id` (captured into the globals) and a `created_at`
key; the fetch by id succeeds only with a 200 whose `id` equals the
captured one and in whose body `text` and `created_at` are merely present
(the fetched text is not compared with the created text); the update
succeeds only when the PUT response itself has status 200, `text` equal to
`updatedText` and the same `id` — each step issues exactly its one request,
so no re-fetch follows the update. -/
theorem post_round_trip_checks (ts : Nat) (server : Server) :
    (∀ (st : HState) (t : List Request) (st2 : HState) (t2 : List Request),
      test_create_post ts server st t = (t2, Except.ok st2) →
      st.auth_token.notNull = true
      ∧ ∃ r, server t (createPostRequest st.auth_token) = HttpResult.success r
        ∧ r.status = 201
        ∧ ∃ pid, jGet r.body "id" = Except.ok pid
          ∧ pid.notNull = true
          ∧ (∃ tv, jIndex r.body "text" = Except.ok tv ∧ Json.beq tv (Json.str postText) = true)
          ∧ pyIn "created_at" r.body = Except.ok true
          ∧ st2 = { st with post_id := pid }
          ∧ t2 = t ++ [createPostRequest st.auth_token])
    ∧ (∀ (st : HState) (t : List Request) (st2 : HState) (t2 : List Request),
      test_get_single_post ts server st t = (t2, Except.ok st2) →
      st.post_id.notNull = true
      ∧ ∃ r, server t (getSinglePostRequest st.post_id) = HttpResult.success r
        ∧ r.status = 200
        ∧ (∃ idv, jIndex r.body "id" = Except.ok idv ∧ Json.beq idv st.post_id = true)
        ∧ pyIn "text" r.body = Except.ok true
        ∧ pyIn "created_at" r.body = Except.ok true
        ∧ st2 = st
        ∧ t2 = t ++ [getSinglePostRequest st.post_id])
    ∧ (∀ (st : HState) (t : List Request) (st2 : HState) (t2 : List Request),
      test_update_post ts server st t = (t2, Except.ok st2) →
      ∃ r, server t (updatePostRequest st.post_id st.auth_token) = HttpResult.success r
        ∧ r.status = 200
        ∧ (∃ tv, jIndex r.body "text" = Except.ok tv ∧ Json.beq tv (Json.str updatedText) = true)
        ∧ (∃ idv, jIndex r.body "id" = Except.ok idv ∧ Json.beq idv st.post_id = true)
        ∧ st2 = st
        ∧ t2 = t ++ [updatePostRequest st.post_id st.auth_token]) := by
  refine ⟨?_, ?_, ?_⟩
  · intro st t st2 t2 h
    unfold test_create_post at h
    simp only [Ht.monadBind_def, Ht.bind_apply, httpCall_apply, pyAssert_apply, liftE_apply,
      Ht.pure_apply] at h
    by_cases hauth : st.auth_token.notNull
    · rw [if_pos hauth] at h
      dsimp only at h
      refine ⟨hauth, ?_⟩
      cases hs : server t (createPostRequest st.auth_token) with
      | connError => rw [hs] at h; dsimp only at h; simp at h
      | success r =>
        rw [hs] at h
        dsimp only at h
        refine ⟨r, rfl, ?_⟩
        by_cases h201 : r.status == 201
        · rw [if_pos h201] at h
          dsimp only at h
          cases hpid : jGet r.body "id" with
          | error e => rw [hpid] at h; dsimp only at h; simp at h
          | ok pid =>
            rw [hpid] at h
            dsimp only at h
            by_cases hpn : pid.notNull
            · rw [if_pos hpn] at h
              dsimp only at h
              cases htv : jIndex r.body "text" with
              | error e => rw [htv] at h; dsimp only at h; simp at h
              | ok tv =>
                rw [htv] at h
                dsimp only at h
                by_cases hbeq : Json.beq tv (Json.str postText)
                · rw [if_pos hbeq] at h
                  dsimp only at h
                  cases hca : pyIn "created_at" r.body with
                  | error e => rw [hca] at h; dsimp only at h; simp at h
                  | ok found =>
                    rw [hca] at h
                    dsimp only at h
                    cases found with
                    | false => simp at h
                    | true =>
                      simp only [if_pos] at h
                      simp only [Prod.mk.injEq, Except.ok.injEq] at h
                      exact ⟨by simpa using h201, pid, rfl, hpn, ⟨tv, rfl, hbeq⟩, rfl,
                        h.2.symm, h.1.symm⟩
                · rw [if_neg hbeq] at h; dsimp only at h; simp at h
            · rw [if_neg hpn] at h; dsimp only at h; simp at h
        · rw [if_neg h201] at h; dsimp only at h; simp at h
    · rw [if_neg hauth] at h; dsimp only at h; simp at h
  · intro st t st2 t2 h
    unfold test_get_single_post at h
    simp only [Ht.monadBind_def, Ht.bind_apply, httpCall_apply, pyAssert_apply, liftE_apply,
      Ht.pure_apply] at h
    by_cases hpidn : st.post_id.notNull
    · rw [if_pos hpidn] at h
      dsimp only at h
      refine ⟨hpidn, ?_⟩
      cases hs : server t (getSinglePostRequest st.post_id) with
      | connError => rw [hs] at h; dsimp only at h; simp at h
      | success r =>
        rw [hs] at h
        dsimp only at h
        refine ⟨r, rfl, ?_⟩
        by_cases h200 : r.status == 200
        · rw [if_pos h200] at h
          dsimp only at h
          cases hidv : jIndex r.body "id" with
          | error e => rw [hidv] at h; dsimp only at h; simp at h
          | ok idv =>
            rw [hidv] at h
            dsimp only at h
            by_cases hbeq : Json.beq idv st.post_id
            · rw [if_pos hbeq] at h
              dsimp only at h
              cases htx : pyIn "text" r.body with
              | error e => rw [htx] at h; dsimp only at h; simp at h
              | ok foundT =>
                rw [htx] at h
                dsimp only at h
                cases foundT with
                | false => simp at h
                | true =>
                  simp only [if_pos] at h
                  cases hca : pyIn "created_at" r.body with
                  | error e => rw [hca] at h; dsimp only at h; simp at h
                  | ok foundC =>
                    rw [hca] at h
                    dsimp only at h
                    cases foundC with
                    | false => simp at h
                    | true =>
                      simp only [if_pos] at h
                      simp only [Prod.mk.injEq, Except.ok.injEq] at h
                      exact ⟨by simpa using h200, ⟨idv, rfl, hbeq⟩, rfl, rfl,
                        h.2.symm, h.1.symm⟩
            · rw [if_neg hbeq] at h; dsimp only at h; simp at h
        · rw [if_neg h200] at h; dsimp only at h; simp at h
    · rw [if_neg hpidn] at h; dsimp only at h; simp at h
  · intro st t st2 t2 h
    unfold test_update_post at h
    simp only [Ht.monadBind_def, Ht.bind_apply, httpCall_apply, pyAssert_apply, liftE_apply,
      Ht.pure_apply] at h
    by_cases hauth : st.auth_token.notNull
    · rw [if_pos hauth] at h
      dsimp only at h
      by_cases hpidn : st.post_id.notNull
      · rw [if_pos hpidn] at h
        dsimp only at h
        cases hs : server t (updatePostRequest st.post_id st.auth_token) with
        | connError => rw [hs] at h; dsimp only at h; simp at h
        | success r =>
          rw [hs] at h
          dsimp only at h
          refine ⟨r, rfl, ?_⟩
          by_cases h200 : r.status == 200
          · rw [if_pos h200] at h
            dsimp only at h
            cases htv : jIndex r.body "text" with
            | error e => rw [htv] at h; dsimp only at h; simp at h
            | ok tv =>
              rw [htv] at h
              dsimp only at h
              by_cases hbeq : Json.beq tv (Json.str updatedText)
              · rw [if_pos hbeq] at h
                dsimp only at h
                cases hidv : jIndex r.body "id" with
                | error e => rw [hidv] at h; dsimp only at h; simp at h
                | ok idv =>
                  rw [hidv] at h
                  dsimp only at h
                  by_cases hbid : Json.beq idv st.post_id
                  · rw [if_pos hbid] at h
                    dsimp only at h
                    simp only [Prod.mk.injEq, Except.ok.injEq] at h
                    exact ⟨by simpa using h200, ⟨tv, rfl, hbeq⟩, ⟨idv, rfl, hbid⟩,
                      h.2.symm, h.1.symm⟩
                  · rw [if_neg hbid] at h; dsimp only at h; simp at h
              · rw [if_neg hbeq] at h; dsimp only at h; simp at h
          · rw [if_neg h200] at h; dsimp only at h; simp at h
      · rw [if_neg hpidn] at h; dsimp only at h; simp at h
    · rw [if_neg hauth] at h; dsimp only at h; simp at h

/-- Witness for the amended C1: the three steps under `gServer`, from the
states the run reaches. -/
theorem post_round_trip_checks_witness :
    (gStateTok.auth_token.notNull = true
      ∧ ∃ r, gServer 0 [] (createPostRequest gStateTok.auth_token) = HttpResult.success r
        ∧ r.status = 201
        ∧ ∃ pid, jGet r.body "id" = Except.ok pid
          ∧ pid.notNull = true
          ∧ (∃ tv, jIndex r.body "text" = Except.ok tv ∧ Json.beq tv (Json.str postText) = true)
          ∧ pyIn "created_at" r.body = Except.ok true
          ∧ gStatePost = { gStateTok with post_id := pid }
          ∧ [createPostRequest gStateTok.auth_token]
              = [] ++ [createPostRequest gStateTok.auth_token])
    ∧ (gStatePost.post_id.notNull = true
      ∧ ∃ r, gServer 0 [] (getSinglePostRequest gStatePost.post_id) = HttpResult.success r
        ∧ r.status = 200
        ∧ (∃ idv, jIndex r.body "id" = Except.ok idv ∧ Json.beq idv gStatePost.post_id = true)
        ∧ pyIn "text" r.body = Except.ok true
        ∧ pyIn "created_at" r.body = Except.ok true
        ∧ gStatePost = gStatePost
        ∧ [getSinglePostRequest gStatePost.post_id]
            = [] ++ [getSinglePostRequest gStatePost.post_id])
    ∧ (∃ r, gServer 0 [] (updatePostRequest gStatePost.post_id gStatePost.auth_token)
          = HttpResult.success r
        ∧ r.status = 200
        ∧ (∃ tv, jIndex r.body "text" = Except.ok tv ∧ Json.beq tv (Json.str updatedText) = true)
        ∧ (∃ idv, jIndex r.body "id" = Except.ok idv ∧ Json.beq idv gStatePost.post_id = true)
        ∧ gStatePost = gStatePost
        ∧ [updatePostRequest gStatePost.post_id gStatePost.auth_token]
            = [] ++ [updatePostRequest gStatePost.post_id gStatePost.auth_token]) :=
  ⟨(post_round_trip_checks 0 (gServer 0)).1 gStateTok [] gStatePost
      [createPostRequest gStateTok.auth_token] rfl,
   (post_round_trip_checks 0 (gServer 0)).2.1 gStatePost [] gStatePost
      [getSinglePostRequest gStatePost.post_id] rfl,
   (post_round_trip_checks 0 (gServer 0)).2.2 gStatePost [] gStatePost
      [updatePostRequest gStatePost.post_id gStatePost.auth_token] rfl⟩

theorem vOk_validateUserCreate (j : Json) :
    vOk (validateUserCreate j)
      = ((jLookup j "username").isSome && (jLookup j "email").isSome
         && (jLookup j "password").isSome
         && isValidEmail (pyStr ((jLookup j "email").getD Json.null))) := by
  unfold validateUserCreate
  cases hu : jLookup j "username" with
  | none => simp [vOk]
  | some uv =>
    cases he : jLookup j "email" with
    | none => simp [vOk]
    | some ev =>
      cases hp : jLookup j "password" with
      | none => simp [vOk]
      | some pv =>
        by_cases hv : isValidEmail (pyStr ev) <;> simp [vOk, hv]

theorem vOk_validateUserLogin (j : Json) :
    vOk (validateUserLogin j)
      = ((jLookup j "email").isSome && (jLookup j "password").isSome
         && isValidEmail (pyStr ((jLookup j "email").getD Json.null))) := by
  unfold validateUserLogin
  cases he : jLookup j "email" with
  | none => simp [vOk]
  | some ev =>
    cases hp : jLookup j "password" with
    | none => simp [vOk]
    | some pv =>
      by_cases hv : isValidEmail (pyStr ev) <;> simp [vOk, hv]

theorem vOk_validateUserResponse (j : Json) :
    vOk (validateUserResponse j)
      = ((jLookup j "username").isSome && (jLookup j "email").isSome
         && (jLookup j "id").isSome
         && isValidEmail (pyStr ((jLookup j "email").getD Json.null))) := by
  unfold validateUserResponse
  cases hu : jLookup j "username" with
  | none => simp [vOk]
  | some uv =>
    cases he : jLookup j "email" with
    | none => simp [vOk]
    | some ev =>
      cases hi : jLookup j "id" with
      | none => simp [vOk]
      | some iv =>
        by_cases hv : isValidEmail (pyStr ev) <;> simp [vOk, hv]

theorem vOk_validateTokenResponse (j : Json) :
    vOk (validateTokenResponse j)
      = ((jLookup j "user").isSome && (jLookup j "token").isSome
         && vOk (validateUserResponse ((jLookup j "user").getD Json.null))) := by
  unfold validateTokenResponse
  cases hu : jLookup j "user" with
  | none => simp [vOk]
  | some uv =>
    cases ht2 : jLookup j "token" with
    | none => simp [vOk]
    | some tv =>
      cases hr : validateUserResponse uv <;> simp [vOk, hr]

/-- C3: the schema defines the four payload shapes of schema.py — creation
(`username`, `email`, `password`), login (`email`, `password`), response
(`username`, `email`, `id`, determined by those three fields alone, so no
password is carried), and the token wrapper (a user response plus a token
string) — and, against the spec-modelled pydantic engine, each raw payload
is accepted exactly when its required fields are present and every email
field is syntactically valid. -/
theorem schema_validation_contract (j : Json) :
    (vOk (validateUserCreate j)
      = ((jLookup j "username").isSome && (jLookup j "email").isSome
         && (jLookup j "password").isSome
         && isValidEmail (pyStr ((jLookup j "email").getD Json.null))))
    ∧ (vOk (validateUserLogin j)
      = ((jLookup j "email").isSome && (jLookup j "password").isSome
         && isValidEmail (pyStr ((jLookup j "email").getD Json.null))))
    ∧ (vOk (validateUserResponse j)
      = ((jLookup j "username").isSome && (jLookup j "email").isSome
         && (jLookup j "id").isSome
         && isValidEmail (pyStr ((jLookup j "email").getD Json.null))))
    ∧ (vOk (validateTokenResponse j)
      = ((jLookup j "user").isSome && (jLookup j "token").isSome
         && vOk (validateUserResponse ((jLookup j "user").getD Json.null))))
    ∧ (∀ a b : UserResponse, a.username = b.username → a.email = b.email → a.id = b.id → a = b)
    ∧ (∀ a b : TokenResponse, a.user = b.user → a.token = b.token → a = b)
    ∧ isValidEmail "invalid-email" = false
    ∧ isValidEmail "test3@example.com" = true := by
  refine ⟨vOk_validateUserCreate j, vOk_validateUserLogin j, vOk_validateUserResponse j,
    vOk_validateTokenResponse j, ?_, ?_, by decide, by decide⟩
  · intro a b h1 h2 h3
    cases a with
    | mk ab ai =>
      cases b with
      | mk bb bi =>
        cases ab; cases bb
        simp only at h1 h2 h3
        subst h1; subst h2; subst h3
        rfl
  · intro a b h1 h2
    cases a with
    | mk au at2 =>
      cases b with
      | mk bu bt =>
        simp only at h1 h2
        subst h1; subst h2
        rfl

/-- Witness for C3: the acceptance equation evaluated at the registration
payload of the harness, and the determinacy of a concrete user response. -/
theorem schema_validation_contract_witness :
    vOk (validateUserCreate (test_user 0))
      = ((jLookup (test_user 0) "username").isSome && (jLookup (test_user 0) "email").isSome
         && (jLookup (test_user 0) "password").isSome
         && isValidEmail (pyStr ((jLookup (test_user 0) "email").getD Json.null)))
    ∧ ({ username := "u", email := "e", id := "i" } : UserResponse)
        = { username := "u", email := "e", id := "i" } :=
  ⟨(schema_validation_contract (test_user 0)).1,
   (schema_validation_contract (test_user 0)).2.2.2.2.1
     { username := "u", email := "e", id := "i" }
     { username := "u", email := "e", id := "i" } rfl rfl rfl⟩
